import Mathlib

/-!
Verification of the video-circle bot's core pipeline (`video_processor.py`,
`bot.py`, `config.py`) against its natural-language specification.

Python floats are modelled as exact rationals (`ℚ`); Python's `int(...)`
truncation on the non-negative values arising here coincides with `Int.floor`.
The ffmpeg filter string built by `create_scale_filter` is modelled as the
ordered list of transform stages it denotes, one constructor per comma-
separated ffmpeg filter in the source string.
-/

/-- A single stage of the ffmpeg video filter chain built by
`create_scale_filter`.
`scaleFitIncrease s` is the source's
`scale=if(gt(iw,ih),-1,s):if(gt(ih,iw),-1,s):force_original_aspect_ratio=increase`
stage (scale preserving aspect ratio so the frame covers an `s`-by-`s` box);
`crop w h` is `crop=w:h`; `scaleExact w h` is `scale=w:h`. -/
inductive FilterStage where
  | scaleFitIncrease (boxSize : Int)
  | crop (w h : Int)
  | scaleExact (w h : Int)
deriving DecidableEq, Repr

/-- The `intermediate_size = int(size * max(1.2, zoom_factor))` of
`create_scale_filter` (video_processor.py line 70).  Python `int(...)`
truncation of these non-negative products is `Rat.floor` (= `Int.floor`
on ℚ) of the exact rational value. -/
def intermediate_size (circle_size : Nat) (scale_percent : Int) : Int :=
  (((circle_size : Int) : ℚ) * max (6/5 : ℚ) ((scale_percent : ℚ) / 100)).floor

/-- The side `int(size * zoom_factor)` of the rescale stage in the zoom
branch of `create_scale_filter` (video_processor.py line 76). -/
def zoomed_size (circle_size : Nat) (scale_percent : Int) : Int :=
  (((circle_size : Int) : ℚ) * ((scale_percent : ℚ) / 100)).floor

/-- `VideoProcessor.create_scale_filter` (video_processor.py lines 55-78),
with `self.circle_size` passed explicitly.  The source returns the ffmpeg
filter string; we return the stage list that string denotes. -/
def create_scale_filter (circle_size : Nat) (scale_percent : Int) : List FilterStage :=
  let size : Int := circle_size
  if scale_percent = 100 then
    [FilterStage.scaleFitIncrease size, FilterStage.crop size size]
  else
    [FilterStage.scaleFitIncrease (intermediate_size circle_size scale_percent),
     FilterStage.crop (intermediate_size circle_size scale_percent)
       (intermediate_size circle_size scale_percent),
     FilterStage.scaleExact (zoomed_size circle_size scale_percent)
       (zoomed_size circle_size scale_percent),
     FilterStage.crop size size]

/-- `VideoProcessor.calculate_start_segment` (video_processor.py lines 47-53):
returns the `(start_time, end_time)` pair of the extracted segment. -/
def calculate_start_segment (duration : ℚ) (target_duration : Int) : ℚ × ℚ :=
  if duration ≤ (target_duration : ℚ) then
    (0, duration)
  else
    (0, min duration (target_duration : ℚ))

/-- One stream entry of an ffprobe result, restricted to the fields
`get_video_info` reads (video_processor.py lines 23-40). -/
structure ProbeStream where
  codec_type : String
  width : Int
  height : Int
  codec_name : Option String
  stream_duration : Option ℚ
  r_frame_rate : Option String
deriving DecidableEq, Repr

/-- An ffprobe result, restricted to the fields `get_video_info` reads:
the container-level format duration (video_processor.py lines 21-22) and
the stream list. -/
structure ProbeData where
  format_duration : Option ℚ
  streams : List ProbeStream
deriving DecidableEq, Repr

/-- The dictionary returned by `get_video_info` on success
(video_processor.py lines 33-41).  The source stores
`eval(video_stream.get('r_frame_rate', '0/1'))` in its `fps` field; we
record the raw rational string handed to that evaluation in `fps_expr`
(the evaluation itself is Python `eval`, i.e. arbitrary expression
evaluation, not a rational parser — see `parse_rational` below for the
strict parser the specification mandates instead). -/
structure VideoInfo where
  duration : ℚ
  width : Int
  height : Int
  video_codec : Option String
  audio_codec : Option String
  has_audio : Bool
  fps_expr : String
deriving DecidableEq, Repr

/-- `VideoProcessor.get_video_info` (video_processor.py lines 17-45) on an
already-parsed probe result.  `float(fmt.get('duration', 0) or 0)` becomes
`getD 0`; the first stream with `codec_type == 'video'` (resp. `'audio'`)
is selected with `find?`; `None` is returned when no video stream exists. -/
def get_video_info (probe : ProbeData) : Option VideoInfo :=
  let duration : ℚ := probe.format_duration.getD 0
  match probe.streams.find? (fun s => s.codec_type == "video") with
  | none => none
  | some v =>
      let a := probe.streams.find? (fun s => s.codec_type == "audio")
      some { duration := duration
             width := v.width
             height := v.height
             video_codec := v.codec_name
             audio_codec := match a with
               | some s => s.codec_name
               | none => none
             has_audio := a.isSome
             fps_expr := v.r_frame_rate.getD ("0/1") }

/-- True when the character list is a non-empty run of decimal digits. -/
def isDigits (cs : List Char) : Bool :=
  !cs.isEmpty && cs.all (fun c => c.isDigit)

/-- Decimal value of a digit run. -/
def digitsVal (cs : List Char) : Nat :=
  cs.foldl (fun a c => 10 * a + (c.toNat - 48)) 0

/-- Parse an optionally-negated decimal integer; `none` on anything else. -/
def parseInt? (cs : List Char) : Option Int :=
  match cs with
  | ('-') :: rest => if isDigits rest then some (-(digitsVal rest : Int)) else none
  | _ => if isDigits cs then some ((digitsVal cs : Nat) : Int) else none

/-- Modelled from the spec: the strict rational-number parser that §9
mandates in place of the source's `eval` of the frame-rate string — it
accepts exactly strings of the form `integer "/" integer` (with a non-zero
denominator) and rejects everything else instead of evaluating it. -/
def parse_rational (s : String) : Option ℚ :=
  match s.toList.splitOn ('/') with
  | [a, b] =>
      match parseInt? a, parseInt? b with
      | some n, some d => if d = 0 then none else some ((n : ℚ) / (d : ℚ))
      | _, _ => none
  | _ => none

/-- Modelled from the spec: the dimension semantics of a single filter
stage (the stages themselves are built by `create_scale_filter`; their
effect on frame geometry is the external transcoding engine's, specified
in §4.3: "force aspect ratio, increase" scales the frame by the smallest
factor that covers the requested square box, `crop` cuts the frame down
to the requested box, an exact `scale` resizes to the stated size). -/
def run_stage : FilterStage → ℚ × ℚ → ℚ × ℚ
  | FilterStage.scaleFitIncrease s, (w, h) =>
      let f : ℚ := max ((s : ℚ) / w) ((s : ℚ) / h)
      (w * f, h * f)
  | FilterStage.crop cw ch, (w, h) => (min (cw : ℚ) w, min (ch : ℚ) h)
  | FilterStage.scaleExact sw sh, _ => ((sw : ℚ), (sh : ℚ))

/-- Frame dimensions after running a whole filter chain. -/
def run_graph (g : List FilterStage) (d : ℚ × ℚ) : ℚ × ℚ :=
  g.foldl (fun d st => run_stage st d) d

/-- The extraction duration computed by `create_video_circle`
(video_processor.py line 94): `segment_duration = max(0.5, end_time - start_time)`. -/
def segment_duration (duration : ℚ) (target_duration : Int) : ℚ :=
  let se := calculate_start_segment duration target_duration
  max (1/2 : ℚ) (se.2 - se.1)

/-- The audio input wired into the ffmpeg output by `create_video_circle`:
either the source's own audio stream (`in_v.audio`, line 124) or the
silent lavfi source `anullsrc=r=48000:cl=stereo` (line 132). -/
inductive AudioSource where
  | source_audio
  | anullsrc (rate : Int) (channel_layout : String)
deriving DecidableEq, Repr

/-- The codec/container parameters of `create_video_circle`
(video_processor.py lines 105-119): `video_params` and `audio_params`. -/
structure OutputParams where
  vcodec : String
  vf : List FilterStage
  pix_fmt : String
  preset : String
  crf : String
  maxrate : String
  bufsize : String
  movflags : String
  acodec : String
  audio_bitrate : String
deriving DecidableEq, Repr

/-- The full instruction set `create_video_circle` hands to ffmpeg
(video_processor.py lines 102-139): input seek/limit, filter chain,
codec parameters, audio source, `shortest=None` truncation flag. -/
structure TranscodeJob where
  ss : ℚ
  t : ℚ
  audio : AudioSource
  params : OutputParams
  shortest : Bool
deriving DecidableEq, Repr

/-- The job-construction part of `VideoProcessor.create_video_circle`
(video_processor.py lines 93-139), after a successful probe:
segment selection, duration clamping, filter construction, parameter
assembly, and the audio-presence branch. -/
def build_transcode_job (info : VideoInfo) (target_duration : Int)
    (scale_percent : Int) (circle_size : Nat) : TranscodeJob :=
  let se := calculate_start_segment info.duration target_duration
  let seg : ℚ := max (1/2 : ℚ) (se.2 - se.1)
  let video_filter := create_scale_filter circle_size scale_percent
  { ss := se.1
    t := seg
    audio := if info.has_audio then AudioSource.source_audio
             else AudioSource.anullsrc 48000 "stereo"
    params := { vcodec := "libx264"
                vf := video_filter
                pix_fmt := "yuv420p"
                preset := "medium"
                crf := "23"
                maxrate := "2500k"
                bufsize := "5000k"
                movflags := "+faststart"
                acodec := "aac"
                audio_bitrate := "128k" }
    shortest := true }

/-- The post-run artifact check of `create_video_circle`
(video_processor.py line 144): the output path must exist and be
non-empty. -/
def circle_postcheck (output_exists : Bool) (output_size : Nat) : Bool :=
  output_exists && decide (0 < output_size)

/-- The boolean result of `VideoProcessor.create_video_circle`
(video_processor.py lines 142-156): an engine error (a raised
`ffmpeg.Error`) is caught and yields `False`; otherwise the result is the
artifact post-check of line 144. -/
def create_video_circle_result (engine_error : Bool) (output_exists : Bool)
    (output_size : Nat) : Bool :=
  if engine_error then false else circle_postcheck output_exists output_size

/-- A flat filesystem: an association of paths to file sizes. -/
abbrev FS := List (String × Nat)

/-- Whether a file exists at `p` (`os.path.exists`). -/
def fsExists (fs : FS) (p : String) : Bool :=
  match fs with
  | [] => false
  | e :: rest => e.1 == p || fsExists rest p

/-- Remove any file at `p` (`os.unlink`). -/
def fsUnlink (fs : FS) (p : String) : FS :=
  match fs with
  | [] => []
  | e :: rest => if e.1 = p then fsUnlink rest p else e :: fsUnlink rest p

/-- Create (or overwrite) a file of size `sz` at `p`. -/
def fsCreate (fs : FS) (p : String) (sz : Nat) : FS :=
  (p, sz) :: fsUnlink fs p

/-- Set the state of path `p`: `none` means no file remains there. -/
def fsSetOpt (fs : FS) (p : String) (o : Option Nat) : FS :=
  match o with
  | none => fsUnlink fs p
  | some sz => fsCreate fs p sz

/-- `VideoProcessor.process_video` (video_processor.py lines 158-179) as a
filesystem transformer.  `tempfile.NamedTemporaryFile(delete=False)`
creates an empty file at the freshly allocated `output_path` (line 162);
the input-existence check follows (line 164); `create_video_circle` is
then the black box whose boolean result is `circle_ok` and which leaves
`circle_leaves` at `output_path` (`none` when ffmpeg wrote nothing);
on a failed circle the artifact is unlinked when present (lines 174-175).
Returns the `Optional[str]` result together with the final filesystem. -/
def process_video (fs0 : FS) (input_path output_path : String)
    (circle_ok : Bool) (circle_leaves : Option Nat) : Option String × FS :=
  let fs1 := fsCreate fs0 output_path 0
  if fsExists fs1 input_path = false then
    (none, fs1)
  else
    let fs2 := fsSetOpt fs1 output_path circle_leaves
    if circle_ok then
      (some output_path, fs2)
    else if fsExists fs2 output_path then
      (none, fsUnlink fs2 output_path)
    else
      (none, fs2)

/-- Lookup in a Python-dict model (association list, first match wins). -/
def dictGet {α β : Type} [DecidableEq α] (d : List (α × β)) (k : α) : Option β :=
  match d with
  | [] => none
  | e :: rest => if e.1 = k then some e.2 else dictGet rest k

/-- Assignment `d[k] = v` in a Python-dict model: replace the existing
binding in place, or append a new one. -/
def dictSet {α β : Type} [DecidableEq α] (d : List (α × β)) (k : α) (v : β) :
    List (α × β) :=
  match d with
  | [] => [(k, v)]
  | e :: rest => if e.1 = k then (k, v) :: rest else e :: dictSet rest k v

/-- The module-level `user_settings` store of bot.py (lines 21-23):
a dict from user id to a dict from setting key to value. -/
abbrev UserSettings := List (Int × List (String × Int))

/-- `get_user_setting` (bot.py lines 43-45):
`user_settings.get(user_id, {}).get(key, default)`. -/
def get_user_setting (s : UserSettings) (user_id : Int) (key : String)
    (default : Int) : Int :=
  (dictGet ((dictGet s user_id).getD []) key).getD default

/-- `set_user_setting` (bot.py lines 47-51): ensure the user's dict exists,
then assign `user_settings[user_id][key] = value`. -/
def set_user_setting (s : UserSettings) (user_id : Int) (key : String)
    (value : Int) : UserSettings :=
  dictSet s user_id (dictSet ((dictGet s user_id).getD []) key value)

/-- A probe result whose container has no duration field but whose video
stream carries its own duration of 42 s. -/
def stream_duration_only_probe : ProbeData :=
  { format_duration := none
    streams := [{ codec_type := "video"
                  width := 1280
                  height := 720
                  codec_name := some ("h264")
                  stream_duration := some 42
                  r_frame_rate := some ("30/1") }] }

/-- A probe result with a container-level duration of 30 s. -/
def container_duration_probe : ProbeData :=
  { format_duration := some 30
    streams := [{ codec_type := "video"
                  width := 1280
                  height := 720
                  codec_name := some ("h264")
                  stream_duration := some 42
                  r_frame_rate := some ("30/1") }] }

/-- A probe result whose video stream's `r_frame_rate` is the malformed
rational string `1+1` — not of the form `integer "/" integer`. -/
def malformed_fps_probe : ProbeData :=
  { format_duration := some 30
    streams := [{ codec_type := "video"
                  width := 640
                  height := 480
                  codec_name := some ("h264")
                  stream_duration := none
                  r_frame_rate := some ("1+1") }] }

/-- A probed source that has an audio stream. -/
def source_with_audio : VideoInfo :=
  { duration := 90
    width := 1920
    height := 1080
    video_codec := some ("h264")
    audio_codec := some ("aac")
    has_audio := true
    fps_expr := "30/1" }

/-- A probed source that has no audio stream. -/
def source_without_audio : VideoInfo :=
  { duration := 90
    width := 1920
    height := 1080
    video_codec := some ("h264")
    audio_codec := none
    has_audio := false
    fps_expr := "30/1" }

/-- `Rat.floor` agrees with the floor of the `FloorRing ℚ` instance (the
instance is built from `Rat.floor`, so this is definitional). -/
theorem rat_floor_eq_floor (q : ℚ) : q.floor = ⌊q⌋ := rfl

/-- C4: for every totalDuration ≥ 0 and targetDuration, if
`totalDuration <= targetDuration` the segment selector returns the whole
clip `[0, totalDuration)`; otherwise it returns a window starting at `0`
with end `min(totalDuration, targetDuration)`, i.e. of length equal to
`targetDuration` and with end ≤ totalDuration (beginning-of-clip policy). -/
theorem C4_start_segment_policy (d : ℚ) (t : Int) (hd : 0 ≤ d) :
    (d ≤ (t : ℚ) → calculate_start_segment d t = (0, d)) ∧
    ((t : ℚ) < d →
      calculate_start_segment d t = (0, min d (t : ℚ)) ∧
      (calculate_start_segment d t).2 - (calculate_start_segment d t).1 = (t : ℚ) ∧
      (calculate_start_segment d t).2 ≤ d) := by
  constructor
  · intro h
    simp [calculate_start_segment, h]
  · intro h
    have h' : ¬ d ≤ (t : ℚ) := not_le.mpr h
    have hmin : min d (t : ℚ) = (t : ℚ) := min_eq_right h.le
    refine ⟨by simp [calculate_start_segment, h'], ?_, ?_⟩
    · simp [calculate_start_segment, h', hmin]
    · simp [calculate_start_segment, h', hmin]
      exact h.le

/-- Witness for C4 at a 90 s source with a 10 s target (truncating branch)
and a 5 s source with a 10 s target (whole-clip branch). -/
theorem C4_start_segment_policy_witness :
    calculate_start_segment 5 10 = (0, 5) ∧ calculate_start_segment 90 10 = (0, 10) := by
  have h1 := (C4_start_segment_policy 5 10 (by norm_num)).1 (by norm_num)
  have h2 := ((C4_start_segment_policy 90 10 (by norm_num)).2 (by norm_num)).1
  exact ⟨h1, h2.trans (by decide)⟩

/-- C2 counterexample: `calculate_start_segment` itself returns the
degenerate window `(0, 0)` on a zero-length source, whose length is below
the 0.5 s floor — the widening happens downstream, not in the selector. -/
theorem C2_selector_length_counterexample :
    calculate_start_segment 0 10 = (0, 0) ∧
    ¬ ((1 : ℚ) / 2 ≤ (calculate_start_segment 0 10).2 - (calculate_start_segment 0 10).1) := by
  constructor
  · decide
  · norm_num [calculate_start_segment]

/-- C2 amended: the extraction duration actually sent downstream is
`max(0.5, end - start)` (video_processor.py line 94), so the duration of
the extraction request is at least 0.5 s for every input, including a
totalDuration near zero. -/
theorem C2_segment_duration_floor (d : ℚ) (t : Int) :
    1 / 2 ≤ segment_duration d t :=
  le_max_left _ _

/-- C1: for every zoom percentage in [50, 300] other than 100 and every
target square size, the zoom branch of `create_scale_filter` is the
four-stage graph: scale (force-aspect-ratio-increase) to the intermediate
square of side `int(targetSize * max(1.2, zoomPercent/100))`, crop to that
intermediate square, rescale to the square of side
`int(targetSize * zoomPercent/100)`, and a final crop of exactly
`targetSize × targetSize`; the intermediate side is at least the target
size (strictly greater for any real target size, i.e. ≥ 5). -/
theorem C1_scale_filter_zoom_graph (circle_size : Nat) (p : Int)
    (h50 : 50 ≤ p) (h300 : p ≤ 300) (hne : p ≠ 100) :
    create_scale_filter circle_size p =
      [FilterStage.scaleFitIncrease (intermediate_size circle_size p),
       FilterStage.crop (intermediate_size circle_size p) (intermediate_size circle_size p),
       FilterStage.scaleExact (zoomed_size circle_size p) (zoomed_size circle_size p),
       FilterStage.crop (circle_size : Int) (circle_size : Int)] ∧
    (circle_size : Int) ≤ intermediate_size circle_size p ∧
    (5 ≤ circle_size → (circle_size : Int) < intermediate_size circle_size p) := by
  refine ⟨by simp [create_scale_filter, hne], ?_, ?_⟩
  · rw [intermediate_size, rat_floor_eq_floor, Int.le_floor]
    have hm : (1 : ℚ) ≤ max (6/5 : ℚ) ((p : ℚ) / 100) :=
      le_trans (by norm_num) (le_max_left _ _)
    have hx : (0 : ℚ) ≤ ((circle_size : Int) : ℚ) := by positivity
    calc (((circle_size : Int) : ℚ)) = ((circle_size : Int) : ℚ) * 1 := by ring
      _ ≤ ((circle_size : Int) : ℚ) * max (6/5 : ℚ) ((p : ℚ) / 100) :=
          mul_le_mul_of_nonneg_left hm hx
  · intro h5
    rw [intermediate_size, rat_floor_eq_floor, Int.lt_iff_add_one_le, Int.le_floor]
    have hx : (5 : ℚ) ≤ (circle_size : ℚ) := by exact_mod_cast h5
    have hm : (6/5 : ℚ) ≤ max (6/5 : ℚ) ((p : ℚ) / 100) := le_max_left _ _
    have h1 : ((circle_size : Int) : ℚ) * (6/5 : ℚ) ≤
        ((circle_size : Int) : ℚ) * max (6/5 : ℚ) ((p : ℚ) / 100) :=
      mul_le_mul_of_nonneg_left hm (by positivity)
    have h2 : (((circle_size : Int) + 1 : Int) : ℚ) ≤ ((circle_size : Int) : ℚ) * (6/5 : ℚ) := by
      push_cast
      linarith
    linarith

/-- Witness for C1: at target size 480, zoom 150 % produces the graph
scale-to-720, crop 720×720, rescale to 720×720, crop 480×480, and zoom
75 % produces scale-to-576, crop 576×576, rescale to 360×360, crop
480×480; both intermediate sides exceed 480. -/
theorem C1_scale_filter_zoom_graph_witness :
    create_scale_filter 480 150 =
      [FilterStage.scaleFitIncrease 720, FilterStage.crop 720 720,
       FilterStage.scaleExact 720 720, FilterStage.crop 480 480] ∧
    create_scale_filter 480 75 =
      [FilterStage.scaleFitIncrease 576, FilterStage.crop 576 576,
       FilterStage.scaleExact 360 360, FilterStage.crop 480 480] ∧
    (480 : Int) < intermediate_size 480 150 ∧
    (480 : Int) < intermediate_size 480 75 := by
  have e150 : intermediate_size 480 150 = 720 := by
    norm_num [intermediate_size, rat_floor_eq_floor]
  have e75 : intermediate_size 480 75 = 576 := by
    norm_num [intermediate_size, rat_floor_eq_floor]
  have z150 : zoomed_size 480 150 = 720 := by
    norm_num [zoomed_size, rat_floor_eq_floor]
  have z75 : zoomed_size 480 75 = 360 := by
    norm_num [zoomed_size, rat_floor_eq_floor]
  have h150 := C1_scale_filter_zoom_graph 480 150 (by decide) (by decide) (by decide)
  have h75 := C1_scale_filter_zoom_graph 480 75 (by decide) (by decide) (by decide)
  refine ⟨?_, ?_, h150.2.2 (by decide), h75.2.2 (by decide)⟩
  · rw [h150.1, e150, z150]; decide
  · rw [h75.1, e75, z75]; decide

/-- Covering bound for the force-aspect-ratio-increase scale stage: on any
frame with positive dimensions, both scaled dimensions cover the requested
box. -/
theorem run_stage_scaleFit_covers (s : Int) (w h : ℚ) (hw : 0 < w) (hh : 0 < h)
    (hs : 0 ≤ (s : ℚ)) :
    (s : ℚ) ≤ (run_stage (FilterStage.scaleFitIncrease s) (w, h)).1 ∧
    (s : ℚ) ≤ (run_stage (FilterStage.scaleFitIncrease s) (w, h)).2 := by
  constructor
  · show (s : ℚ) ≤ w * max ((s : ℚ) / w) ((s : ℚ) / h)
    calc (s : ℚ) = w * ((s : ℚ) / w) := by
          rw [mul_div_cancel₀]
          exact hw.ne.symm
      _ ≤ w * max ((s : ℚ) / w) ((s : ℚ) / h) :=
          mul_le_mul_of_nonneg_left (le_max_left _ _) hw.le
  · show (s : ℚ) ≤ h * max ((s : ℚ) / w) ((s : ℚ) / h)
    calc (s : ℚ) = h * ((s : ℚ) / h) := by
          rw [mul_div_cancel₀]
          exact hh.ne.symm
      _ ≤ h * max ((s : ℚ) / w) ((s : ℚ) / h) :=
          mul_le_mul_of_nonneg_left (le_max_right _ _) hh.le

/-- C5: for every source aspect ratio (any positive width and height) and
every target square size, `create_scale_filter` at zoom 100 % is the
two-stage graph scale-with-force-aspect-ratio-increase then crop, the
scaled frame covers the target square, and the graph's final output is
exactly `targetSize × targetSize`. -/
theorem C5_scale_filter_base_graph (circle_size : Nat) (w h : ℚ)
    (hw : 0 < w) (hh : 0 < h) :
    create_scale_filter circle_size 100 =
      [FilterStage.scaleFitIncrease (circle_size : Int),
       FilterStage.crop (circle_size : Int) (circle_size : Int)] ∧
    run_graph (create_scale_filter circle_size 100) (w, h) =
      (((circle_size : Int) : ℚ), ((circle_size : Int) : ℚ)) := by
  have hg : create_scale_filter circle_size 100 =
      [FilterStage.scaleFitIncrease (circle_size : Int),
       FilterStage.crop (circle_size : Int) (circle_size : Int)] := by
    simp [create_scale_filter]
  have hs : (0 : ℚ) ≤ ((circle_size : Int) : ℚ) := by positivity
  obtain ⟨hcw, hch⟩ := run_stage_scaleFit_covers (circle_size : Int) w h hw hh hs
  refine ⟨hg, ?_⟩
  rw [hg]
  show run_stage (FilterStage.crop (circle_size : Int) (circle_size : Int))
      (run_stage (FilterStage.scaleFitIncrease (circle_size : Int)) (w, h)) = _
  rcases hd : run_stage (FilterStage.scaleFitIncrease (circle_size : Int)) (w, h) with ⟨w1, h1⟩
  rw [hd] at hcw hch
  show (min ((circle_size : Int) : ℚ) w1, min ((circle_size : Int) : ℚ) h1) = _
  rw [min_eq_left hcw, min_eq_left hch]

/-- Witness for C5: a 1920×1080 landscape source, a 1080×1920 portrait
source and a 600×600 square source all map to exactly 480×480 under the
zoom-100 graph at target size 480. -/
theorem C5_scale_filter_base_graph_witness :
    run_graph (create_scale_filter 480 100) (1920, 1080) = (480, 480) ∧
    run_graph (create_scale_filter 480 100) (1080, 1920) = (480, 480) ∧
    run_graph (create_scale_filter 480 100) (600, 600) = (480, 480) := by
  have h1 := (C5_scale_filter_base_graph 480 1920 1080 (by norm_num) (by norm_num)).2
  have h2 := (C5_scale_filter_base_graph 480 1080 1920 (by norm_num) (by norm_num)).2
  have h3 := (C5_scale_filter_base_graph 480 600 600 (by norm_num) (by norm_num)).2
  refine ⟨h1.trans ?_, h2.trans ?_, h3.trans ?_⟩ <;> norm_num

/-- C6 counterexample: on a file whose container-level duration is absent
while the video stream carries duration 42, `get_video_info` reports
duration 0 — it never falls back to the stream's own duration field. -/
theorem C6_stream_fallback_counterexample :
    (get_video_info stream_duration_only_probe).map VideoInfo.duration = some 0 ∧
    (stream_duration_only_probe.streams.find?
        (fun s => s.codec_type == "video")).bind ProbeStream.stream_duration = some 42 ∧
    (0 : ℚ) ≠ 42 := by
  refine ⟨by decide, by decide, by norm_num⟩

/-- C6 amended: `get_video_info` extracts the duration from the
container-level duration field alone, defaulting to 0 when that field is
absent; the video stream's own duration field is never consulted. -/
theorem C6_duration_container_only (probe : ProbeData) (info : VideoInfo)
    (hinfo : get_video_info probe = some info) :
    info.duration = probe.format_duration.getD 0 := by
  unfold get_video_info at hinfo
  rcases hfind : probe.streams.find? (fun s => s.codec_type == "video") with _ | v
  · rw [hfind] at hinfo
    exact absurd hinfo (by simp)
  · rw [hfind] at hinfo
    have := Option.some.inj hinfo
    rw [← this]

/-- Witness for C6 amended: on a probe with container duration 30 the
returned info carries duration 30 (`format_duration.getD 0`). -/
theorem C6_duration_container_only_witness :
    VideoInfo.duration
      { duration := 30
        width := 1280
        height := 720
        video_codec := some ("h264")
        audio_codec := none
        has_audio := false
        fps_expr := "30/1" } =
    container_duration_probe.format_duration.getD 0 :=
  C6_duration_container_only container_duration_probe _ (by decide)

/-- C3: the probe is required to reject any frame-rate string not of the
form `integer "/" integer` instead of evaluating it; the source instead
hands the raw string to Python `eval` (video_processor.py line 40), so on
the malformed string `1+1` the probe succeeds (with `eval` computing 2)
where the specified strict parser `parse_rational` rejects it. -/
theorem C3_fps_eval_divergence :
    (get_video_info malformed_fps_probe).isSome = true ∧
    (get_video_info malformed_fps_probe).map VideoInfo.fps_expr = some ("1+1") ∧
    parse_rational ("1+1") = none := by
  refine ⟨by decide, by decide, by decide⟩

/-- C7: for every transcode job built by `create_video_circle`, the job
always wires in an audio input: the source's own audio stream (transcoded
to AAC at a 128k bitrate ceiling) when the source has audio, and the
synthesized silent stereo track at 48 kHz (`anullsrc=r=48000:cl=stereo`)
when it does not — either way the produced output carries an audio
stream. -/
theorem C7_audio_always_present (info : VideoInfo) (target_duration : Int)
    (scale_percent : Int) (circle_size : Nat) :
    ((build_transcode_job info target_duration scale_percent circle_size).audio =
        AudioSource.source_audio ∨
     (build_transcode_job info target_duration scale_percent circle_size).audio =
        AudioSource.anullsrc 48000 ("stereo")) ∧
    (info.has_audio = true →
      (build_transcode_job info target_duration scale_percent circle_size).audio =
        AudioSource.source_audio) ∧
    (info.has_audio = false →
      (build_transcode_job info target_duration scale_percent circle_size).audio =
        AudioSource.anullsrc 48000 ("stereo")) ∧
    (build_transcode_job info target_duration scale_percent circle_size).params.acodec =
      "aac" ∧
    (build_transcode_job info target_duration scale_percent circle_size).params.audio_bitrate =
      "128k" := by
  rcases hA : info.has_audio with _ | _ <;>
    simp [build_transcode_job, hA]

/-- Witness for C7: a source with audio passes its own audio stream
through, and a source without audio gets the silent 48 kHz stereo track;
both are transcoded to AAC at 128k. -/
theorem C7_audio_always_present_witness :
    (build_transcode_job source_with_audio 10 100 480).audio =
      AudioSource.source_audio ∧
    (build_transcode_job source_without_audio 10 100 480).audio =
      AudioSource.anullsrc 48000 ("stereo") ∧
    (build_transcode_job source_without_audio 10 100 480).params.acodec = "aac" := by
  have h1 := C7_audio_always_present source_with_audio 10 100 480
  have h2 := C7_audio_always_present source_without_audio 10 100 480
  exact ⟨h1.2.1 rfl, h2.2.2.1 rfl, h2.2.2.2.1⟩

/-- C8: `create_video_circle` reports success only when the engine did not
fail and the named output exists and is non-empty; with a clean engine
exit but a missing or zero-byte output it reports failure, never
success. -/
theorem C8_empty_output_is_failure (output_exists : Bool) (output_size : Nat) :
    create_video_circle_result true output_exists output_size = false ∧
    (create_video_circle_result false output_exists output_size = true ↔
      output_exists = true ∧ 0 < output_size) := by
  refine ⟨rfl, ?_⟩
  rcases output_exists with _ | _ <;>
    simp [create_video_circle_result, circle_postcheck]

/-- Unlinking a path removes it. -/
theorem fsExists_fsUnlink_self (fs : FS) (p : String) :
    fsExists (fsUnlink fs p) p = false := by
  induction fs with
  | nil => rfl
  | cons e rest ih =>
    by_cases he : e.1 = p
    · simpa [fsUnlink, he] using ih
    · simpa [fsUnlink, fsExists, he] using ih

/-- Unlinking one path leaves every other path untouched. -/
theorem fsExists_fsUnlink_of_ne (fs : FS) (p q : String) (h : q ≠ p) :
    fsExists (fsUnlink fs p) q = fsExists fs q := by
  induction fs with
  | nil => rfl
  | cons e rest ih =>
    by_cases he : e.1 = p
    · have hq : (p == q) = false := beq_eq_false_iff_ne.mpr (Ne.symm h)
      simp only [fsUnlink, he, if_true, fsExists, hq, Bool.false_or]
      exact ih
    · simp only [fsUnlink, he, if_false, fsExists]
      rw [ih]

/-- Creating a file at one path leaves existence of every other path
untouched. -/
theorem fsExists_fsCreate_of_ne (fs : FS) (p q : String) (sz : Nat) (h : q ≠ p) :
    fsExists (fsCreate fs p sz) q = fsExists fs q := by
  have hpq : (p == q) = false := beq_eq_false_iff_ne.mpr (Ne.symm h)
  simp only [fsCreate, fsExists, hpq, Bool.false_or]
  exact fsExists_fsUnlink_of_ne fs p q h

/-- C9 counterexample: when the input path does not exist, `process_video`
returns failure but leaves the freshly allocated empty temporary file at
the output path behind — an orphan artifact remains on this failure
path. -/
theorem C9_orphan_artifact_counterexample :
    (process_video ([]) ("input.mp4") ("temp/out.mp4") false none).1 = none ∧
    fsExists (process_video ([]) ("input.mp4") ("temp/out.mp4") false none).2
      ("temp/out.mp4") = true := by
  refine ⟨by decide, by decide⟩

/-- C9 amended: `process_video` allocates the temporary output path before
invoking the transcode driver, and on the transcode-failure path (the
input file exists but `create_video_circle` reports failure) it deletes
whatever artifact remains at the output path before returning failure;
only the input-missing failure path leaves the freshly created empty
temporary file behind. -/
theorem C9_cleanup_on_transcode_failure (fs0 : FS) (input_path output_path : String)
    (circle_ok : Bool) (circle_leaves : Option Nat)
    (hne : input_path ≠ output_path)
    (hin : fsExists fs0 input_path = true)
    (hfail : (process_video fs0 input_path output_path circle_ok circle_leaves).1 = none) :
    fsExists (process_video fs0 input_path output_path circle_ok circle_leaves).2
      output_path = false := by
  have h1 : fsExists (fsCreate fs0 output_path 0) input_path = true := by
    rw [fsExists_fsCreate_of_ne fs0 output_path input_path 0 hne]
    exact hin
  rcases circle_ok with _ | _
  · by_cases h2 : fsExists (fsSetOpt (fsCreate fs0 output_path 0) output_path circle_leaves)
        output_path = true
    · simp only [process_video, h1, Bool.true_eq_false, if_false, h2, if_true]
      exact fsExists_fsUnlink_self _ _
    · simp only [process_video, h1, Bool.true_eq_false, if_false, h2, if_false]
      simpa using h2
  · simp only [process_video, h1, Bool.true_eq_false, if_false, if_true] at hfail
    exact absurd hfail (by simp)

/-- Witness for C9 amended: the input exists, the transcode fails leaving
a partial 100-byte artifact, and the artifact is gone from the final
filesystem. -/
theorem C9_cleanup_on_transcode_failure_witness :
    fsExists
      (process_video ([(("input.mp4"), 5)]) ("input.mp4") ("temp/out.mp4")
        false (some 100)).2 ("temp/out.mp4") = false :=
  C9_cleanup_on_transcode_failure ([(("input.mp4"), 5)]) ("input.mp4") ("temp/out.mp4")
    false (some 100) (by decide) (by decide) (by decide)

/-- Assigning a key makes lookup of that key return the new value. -/
theorem dictGet_dictSet_self {α β : Type} [DecidableEq α]
    (d : List (α × β)) (k : α) (v : β) :
    dictGet (dictSet d k v) k = some v := by
  induction d with
  | nil => simp [dictGet, dictSet]
  | cons e rest ih =>
    by_cases he : e.1 = k
    · simp [dictSet, dictGet, he]
    · simp [dictSet, dictGet, he, ih]

/-- Assigning a key leaves lookup of every other key untouched. -/
theorem dictGet_dictSet_of_ne {α β : Type} [DecidableEq α]
    (d : List (α × β)) (k k2 : α) (v : β) (h : k2 ≠ k) :
    dictGet (dictSet d k v) k2 = dictGet d k2 := by
  induction d with
  | nil => simp [dictGet, dictSet, Ne.symm h]
  | cons e rest ih =>
    by_cases he : e.1 = k
    · simp [dictSet, dictGet, he, Ne.symm h]
    · by_cases he2 : e.1 = k2
      · simp [dictSet, dictGet, he, he2, h]
      · simp [dictSet, dictGet, he, he2, ih]

/-- C10: after `set_user_setting(u, k, v)`, `get_user_setting(u, k, d)`
returns `v` (not the default), and the stored settings of every other
user id and of every other key of `u` are unchanged by the call. -/
theorem C10_user_settings_roundtrip (s : UserSettings) (u : Int) (k : String)
    (v d : Int) :
    get_user_setting (set_user_setting s u k v) u k d = v ∧
    (∀ u2 k2 d2, u2 ≠ u ∨ k2 ≠ k →
      get_user_setting (set_user_setting s u k v) u2 k2 d2 =
        get_user_setting s u2 k2 d2) := by
  constructor
  · simp [get_user_setting, set_user_setting, dictGet_dictSet_self]
  · intro u2 k2 d2 hne
    by_cases hu : u2 = u
    · rcases hne with hne | hne
      · exact absurd hu hne
      · subst hu
        simp only [get_user_setting, set_user_setting, dictGet_dictSet_self,
          Option.getD_some]
        rw [dictGet_dictSet_of_ne _ _ _ _ hne]
    · simp only [get_user_setting, set_user_setting]
      rw [dictGet_dictSet_of_ne _ _ _ _ hu]

/-- Witness for C10: setting user 7's scale to 150 makes its readback 150,
while user 8's scale and user 7's duration still read their defaults. -/
theorem C10_user_settings_roundtrip_witness :
    get_user_setting (set_user_setting ([]) 7 ("scale") 150) 7 ("scale") 100 = 150 ∧
    get_user_setting (set_user_setting ([]) 7 ("scale") 150) 8 ("scale") 100 = 100 ∧
    get_user_setting (set_user_setting ([]) 7 ("scale") 150) 7 ("duration") 10 = 10 := by
  have h := C10_user_settings_roundtrip ([]) 7 ("scale") 150 100
  refine ⟨h.1, ?_, ?_⟩
  · rw [h.2 8 ("scale") 100 (Or.inl (by decide))]
    decide
  · rw [h.2 7 ("duration") 10 (Or.inr (by decide))]
    decide
